import Mathlib

/-!
Verification development for the document-ingestion core of the
DOCUMENT-RAG-PORTAL repository: a shallow embedding in Lean 4 of
`src/document_ingestion/table_image_processor.py` and
`src/document_ingestion/document_processors.py`, together with theorems
settling the claims of the specification about them.

Modelling conventions:
* Python floats are modelled as exact rationals (`ℚ`); all inputs in the
  claims are small decimal literals on which float and rational
  arithmetic agree.
* Python strings are Lean `String`s; `str.strip()` / `str.lower()` are
  re-implemented over the character list so kernel evaluation is cheap.
* A Python function that may `raise` is modelled with `Except PyErr`;
  calls into external libraries (PyMuPDF, pytesseract, pandas, PIL,
  python-pptx) are modelled by passing their result — or the exception
  they raised — as an explicit argument.
-/

/-- Python exception values as they occur in the embedded code:
`ValueError(msg)` (raised by the processor factory) and a generic
`Exception(msg)` (raised by the wrap-and-reraise handlers of the processors). -/
inductive PyErr where
  | valueError (msg : String)
  | exception (msg : String)
deriving DecidableEq, Repr

instance {ε α : Type} [DecidableEq ε] [DecidableEq α] : DecidableEq (Except ε α) := fun a b =>
  match a, b with
  | .ok x, .ok y =>
    match decEq x y with
    | isTrue h => isTrue (h ▸ rfl)
    | isFalse h => isFalse fun hh => h (Except.ok.inj hh)
  | .error x, .error y =>
    match decEq x y with
    | isTrue h => isTrue (h ▸ rfl)
    | isFalse h => isFalse fun hh => h (Except.error.inj hh)
  | .ok _, .error _ => isFalse fun hh => Except.noConfusion hh
  | .error _, .ok _ => isFalse fun hh => Except.noConfusion hh

/-- Python `str.strip()` on the character list (ASCII/unicode whitespace
via `Char.isWhitespace`). -/
def pyStrip (s : String) : String :=
  ⟨((s.data.dropWhile Char.isWhitespace).reverse.dropWhile Char.isWhitespace).reverse⟩

/-- Python `str.lower()` (agrees with `Char.toLower` on ASCII, which is
all the embedded code compares). -/
def pyLower (s : String) : String :=
  ⟨s.data.map Char.toLower⟩

/-- Python `round(q / nothing, -1)`-style rounding to the nearest multiple
of 10, with ties resolved to the even multiple (round half to even), as
`round(pos, -1)` does in `_is_table_structure` / `_extract_table_data`. -/
def pyRound10 (q : ℚ) : ℚ :=
  let d : ℚ := q / 10
  let f : ℤ := ⌊d⌋
  let r : ℚ := d - f
  10 * (if r < 1/2 then (f : ℚ)
        else if r > 1/2 then (f + 1 : ℤ)
        else if f % 2 = 0 then (f : ℚ) else (f + 1 : ℤ))

/-- The payload a detected-table dict carries besides its page, bbox and
confidence: `"data"` (a row/column grid, geometry-based candidates) or
`"text"` (raw recognized text, image-based candidates). -/
inductive TableContent where
  | grid (rows : List (List String))
  | text (t : String)
deriving DecidableEq, Repr

/-- A table-candidate dict as built by `TableProcessor`: fields `page`,
`block_id`/`table_id` (here `id`), `type`, `data`/`text` (here `content`),
`bbox = [x0, y0, x1, y1]` and `confidence`. -/
structure TableDict where
  page : Nat
  id : Nat
  type : String
  content : TableContent
  bbox : ℚ × ℚ × ℚ × ℚ
  confidence : ℚ
deriving DecidableEq, Repr

namespace TableProcessor

/-- Embedding of `TableProcessor._tables_overlap`: same page, and the intersection
area exceeds half of the area of the smaller box. -/
def tables_overlap (t1 t2 : TableDict) : Bool :=
  if t1.page ≠ t2.page then false
  else
    let b1 := t1.bbox
    let b2 := t2.bbox
    let x_overlap : ℚ := max 0 (min b1.2.2.1 b2.2.2.1 - max b1.1 b2.1)
    let y_overlap : ℚ := max 0 (min b1.2.2.2 b2.2.2.2 - max b1.2.1 b2.2.1)
    let overlap_area := x_overlap * y_overlap
    let area1 := (b1.2.2.1 - b1.1) * (b1.2.2.2 - b1.2.1)
    let area2 := (b2.2.2.1 - b2.1) * (b2.2.2.2 - b2.2.1)
    overlap_area > (0.5 : ℚ) * min area1 area2

/-- Embedding of `TableProcessor._merge_duplicate_tables`.  The Python version walks
the list with an index set `used_indices`: the first not-yet-used table
`t1` absorbs every later not-yet-used table overlapping `t1` (the
surviving dict is the first maximum of the absorbed group by `confidence`,
compared with strict `>` against the running survivor), and the scan then
continues on the tables that did not overlap `t1`.  Eliminating the index
set gives this structural recursion on the not-yet-used suffix. -/
def merge_duplicate_tables : List TableDict → List TableDict
  | [] => []
  | t1 :: rest =>
    let absorbed := rest.filter fun t => tables_overlap t1 t
    let remaining := rest.filter fun t => !(tables_overlap t1 t)
    let m := absorbed.foldl
      (fun m t => if t.confidence > m.confidence then t else m) t1
    m :: merge_duplicate_tables remaining
termination_by l => l.length
decreasing_by
  simp only [List.length_cons]
  exact Nat.lt_succ_of_le (List.length_filter_le _ _)

end TableProcessor

/-- One span of a PDF text line as `page.get_text("dict")` reports it:
the code reads `span["bbox"][0]` (the left x-coordinate) and
`span["text"]`. -/
structure PdfSpan where
  x0 : ℚ
  text : String
deriving DecidableEq, Repr

/-- One line of a PDF text block: `line.get("spans", [])`. -/
structure PdfLine where
  spans : List PdfSpan
deriving DecidableEq, Repr

/-- One block of `page.get_text("dict")["blocks"]`: image blocks have no
`"lines"` key (`none` here); every block carries a `"bbox"`. -/
structure PdfBlock where
  lines : Option (List PdfLine)
  bbox : ℚ × ℚ × ℚ × ℚ
deriving DecidableEq, Repr

namespace TableProcessor

/-- The `line_spans` list built in `_detect_tables_from_blocks`:
`[(span["bbox"][0], span["text"]) for span in spans]` per line. -/
def line_spans_of (lines : List PdfLine) : List (List (ℚ × String)) :=
  lines.map fun line => line.spans.map fun span => (span.x0, span.text)

/-- Embedding of `TableProcessor._is_table_structure`: at least 2 lines, at least 2
distinct span positions rounded to the nearest 10 across the whole block,
and strictly more than half the lines holding more than one span. -/
def is_table_structure (line_spans : List (List (ℚ × String))) : Bool :=
  if line_spans.length < 2 then false
  else
    let column_positions :=
      (line_spans.flatMap fun spans => spans.map fun ps => pyRound10 ps.1).dedup
    if column_positions.length < 2 then false
    else
      let multi_column_lines := (line_spans.filter fun spans => spans.length > 1).length
      decide ((multi_column_lines : ℚ) / (line_spans.length : ℚ) > (0.5 : ℚ))

/-- Insertion into a sorted list of rationals; `sortedRats` below models
the Python built-in `sorted` on the (distinct) rounded positions.  (A structural
recursion is used so concrete runs reduce in the kernel.) -/
def insertRat (x : ℚ) : List ℚ → List ℚ
  | [] => [x]
  | y :: ys => if x ≤ y then x :: y :: ys else y :: insertRat x ys

/-- Python `sorted` on a list of rationals (insertion sort). -/
def sortedRats (l : List ℚ) : List ℚ :=
  l.foldr insertRat []

/-- Embedding of `TableProcessor._extract_table_data`: map the stripped text of each span to
the column slot of its rounded position, drop the columns whose cells are
all empty (`df.loc[:, (df != "").any(axis=0)]`), and return `none` when
the remaining frame is empty (`return df if not df.empty else None`,
where a frame with no rows or no remaining columns is empty). -/
def extract_table_data (line_spans : List (List (ℚ × String))) :
    Option (List (List String)) :=
  let all_positions :=
    (line_spans.flatMap fun spans => spans.map fun ps => pyRound10 ps.1).dedup
  let sorted_positions := sortedRats all_positions
  let table_rows := line_spans.map fun spans =>
    spans.foldl
      (fun row ps =>
        let rounded_pos := pyRound10 ps.1
        if rounded_pos ∈ sorted_positions then
          row.set (sorted_positions.findIdx fun x => decide (x = rounded_pos)) (pyStrip ps.2)
        else row)
      (List.replicate sorted_positions.length "")
  if table_rows.isEmpty then none
  else
    let kept_cols := (List.range sorted_positions.length).filter fun j =>
      table_rows.any fun row => row.getD j "" ≠ ""
    if kept_cols.isEmpty then none
    else some (table_rows.map fun row => kept_cols.map fun j => row.getD j "")

/-- The `ValueError` pandas raises when a `DataFrame` is used as a truth
value, as `if table_data:` does in `_detect_tables_from_blocks`. -/
def dataFrameBoolError : PyErr :=
  .valueError ("The truth value of a DataFrame is ambiguous. " ++
    "Use a.empty, a.bool(), a.item(), a.any() or a.all().")

/-- Embedding of `TableProcessor._detect_tables_from_blocks`, blocks enumerated from
`block_idx`.  Faithful to the source including its defect: the guard
`if table_data:` asks for the truth value of a pandas `DataFrame`, which
raises `ValueError` — so reaching a block whose table data is non-`None`
raises instead of appending the candidate dict built in the source. -/
def detect_blocks_from (page_num : Nat) : Nat → List PdfBlock → Except PyErr (List TableDict)
  | _, [] => .ok []
  | block_idx, block :: rest =>
    match block.lines with
    | none => detect_blocks_from page_num (block_idx + 1) rest
    | some lines =>
      if lines.length < 2 then detect_blocks_from page_num (block_idx + 1) rest
      else
        let line_spans := line_spans_of lines
        if is_table_structure line_spans then
          match extract_table_data line_spans with
          | some _ => .error dataFrameBoolError
          | none => detect_blocks_from page_num (block_idx + 1) rest
        else detect_blocks_from page_num (block_idx + 1) rest

/-- Embedding of `TableProcessor._detect_tables_from_blocks` on the block list of a page. -/
def detect_tables_from_blocks (blocks : List PdfBlock) (page_num : Nat) :
    Except PyErr (List TableDict) :=
  detect_blocks_from page_num 0 blocks

end TableProcessor

/-- A PIL image as `_classify_image_type` inspects it: its `mode` string
and the number of distinct colors it contains (`getcolors` reports a list
with one entry per distinct color, or `None` when there are more than
`maxcolors` of them; only the length of that list is read by the code). -/
structure PILImage where
  mode : String
  distinct_colors : Nat
deriving DecidableEq, Repr

/-- PIL `Image.getcolors(maxcolors)`, abstracted to the length of the
returned list: `none` models `None` (more distinct colors than
`maxcolors`). -/
def PILImage.getcolors (image : PILImage) (maxcolors : Nat) : Option Nat :=
  if image.distinct_colors > maxcolors then none else some image.distinct_colors

namespace ImageProcessor

/-- Embedding of `ImageProcessor._classify_image_type`: ordered tests on the OCR text
length, digit content, image mode, and color-palette size. -/
def classify_image_type (image : PILImage) (ocr_text : String) : String :=
  if ocr_text.length > 50 then "text_image"
  else if ocr_text.data.any Char.isDigit then "chart_or_graph"
  else if image.mode = "1" then "diagram"
  else if image.mode = "RGB" ∨ image.mode = "RGBA" then
    match image.getcolors 256 with
    | some n => if n ≠ 0 ∧ n < 10 then "logo_or_icon" else "photograph"
    | none => "photograph"
  else "photograph"

end ImageProcessor

/-- The ordered classification rule exactly as the claim words it
(definition follows the words of the spec, for comparison with the source function
`_classify_image_type`): text longer than 50 characters, else text with a
digit, else 1-bit mode, else a color image with fewer than 10 distinct
colors, else photograph. -/
def spec_classify_image (image : PILImage) (ocr_text : String) : String :=
  if ocr_text.length > 50 then "text_image"
  else if ocr_text.data.any Char.isDigit then "chart_or_graph"
  else if image.mode = "1" then "diagram"
  else if (image.mode = "RGB" ∨ image.mode = "RGBA") ∧ image.distinct_colors < 10 then
    "logo_or_icon"
  else "photograph"

/-- Python `pathlib.PurePath(p).name`: the final path component
(modelled for POSIX separators, which is what the embedded code passes). -/
def pyName (p : String) : String :=
  match (p.splitOn "/").getLast? with
  | some s => s
  | none => p

/-- Python `pathlib.PurePath(p).suffix`: the extension of the final
component — `name[i:]` for `i` the index of the last `'.'`, provided
`0 < i < len(name) - 1`, else the empty string. -/
def pySuffix (p : String) : String :=
  let name := (pyName p).data
  match ((name.enum.filter fun ic => ic.2 = '.').getLast?).map Prod.fst with
  | some i => if 0 < i ∧ i < name.length - 1 then ⟨name.drop i⟩ else ""
  | none => ""

/-- The processor classes registered in `DocumentProcessorFactory._processors`
(`get_processor` instantiates one; we track which class it picked). -/
inductive ProcessorKind where
  | pdf          -- PDFProcessor
  | docx         -- DocxProcessor
  | powerpoint   -- PowerPointProcessor
  | excel        -- ExcelProcessor
  | markdown     -- MarkdownProcessor
  | text         -- EnhancedTextProcessor
  | database     -- DatabaseProcessor
deriving DecidableEq, Repr

namespace DocumentProcessorFactory

/-- Embedding of `DocumentProcessorFactory._processors`: the extension-keyed registry,
in source order. -/
def processors : List (String × ProcessorKind) :=
  [(".pdf", .pdf), (".docx", .docx), (".pptx", .powerpoint),
   (".ppt", .powerpoint), (".xlsx", .excel), (".csv", .excel),
   (".md", .markdown), (".txt", .text), (".db", .database),
   (".sqlite", .database)]

/-- Embedding of `DocumentProcessorFactory.get_processor`: look the lower-cased suffix
up in the registry; raise `ValueError(f"Unsupported file type: {ext}")`
when absent. -/
def get_processor (file_path : String) : Except PyErr ProcessorKind :=
  let file_ext := pyLower (pySuffix file_path)
  match processors.lookup file_ext with
  | none => .error (.valueError ("Unsupported file type: " ++ file_ext))
  | some k => .ok k

/-- Embedding of `DocumentProcessorFactory.get_supported_types`: the registry keys. -/
def get_supported_types : List String :=
  processors.map Prod.fst

end DocumentProcessorFactory

/-- Modelled from the spec: the Chunking Engine (the `langchain`
`RecursiveCharacterTextSplitter`, external to `src/`) splits text into
segments of at most `chunkSize` characters with `chunkOverlap` characters
shared between consecutive segments; empty text yields no segments and
text that already fits yields a single segment.  Only the two facts just
named are relied on by the theorems below; the stepping is a simple
character-level instance of the recursive boundary splitting of the spec. -/
def split_text (chunkSize chunkOverlap : Nat) (text : String) : List String :=
  let step := max 1 (chunkSize - chunkOverlap)
  let rec go (fuel : Nat) (cs : List Char) : List (List Char) :=
    match fuel with
    | 0 => if cs.isEmpty then [] else [cs]
    | fuel + 1 =>
      if cs.isEmpty then []
      else if cs.length ≤ chunkSize then [cs]
      else cs.take chunkSize :: go fuel (cs.drop step)
  (go text.length text.data).map fun cs => (⟨cs⟩ : String)

/-- A `langchain.schema.Document`: `page_content` plus a metadata
mapping, whose shape `M` depends on the producing processor. -/
structure LCDocument (M : Type) where
  page_content : String
  metadata : M
deriving DecidableEq, Repr

/-- The metadata dict of a produced chunk: the producing processor metadata
dict updated with the keys `chunk_id` and `chunk_count`
(`doc_metadata.update({...})` in `_create_documents`). -/
structure ChunkMeta (M : Type) where
  base : M
  chunk_id : Nat
  chunk_count : Nat
deriving DecidableEq, Repr

namespace BaseDocumentProcessor

/-- Embedding of `BaseDocumentProcessor._create_documents`: join the pre-chunk texts
with newlines, split, and wrap each chunk with indexed metadata. -/
def create_documents {M : Type} (chunk_size chunk_overlap : Nat)
    (texts : List String) (metadata : M) : List (LCDocument (ChunkMeta M)) :=
  let chunks := split_text chunk_size chunk_overlap (String.intercalate "\n" texts)
  chunks.enum.map fun ic =>
    { page_content := ic.2
      metadata := { base := metadata, chunk_id := ic.1, chunk_count := chunks.length } }

end BaseDocumentProcessor

/-- A page of an opened PDF as `PDFProcessor.process` reads it:
`getText` models `page.get_text()`, and `ocr2x` models
`pytesseract.image_to_string` applied to the page pixmap rendered at
2× resolution (`page.get_pixmap(matrix=fitz.Matrix(2, 2))`); an `error`
value is an exception raised anywhere inside the per-page OCR `try`. -/
structure PdfPage where
  getText : String
  ocr2x : Except String String
deriving DecidableEq, Repr

/-- The metadata dict `PDFProcessor.process` builds. -/
structure PDFMeta where
  source : String
  filename : String
  file_type : String
  page_count : Nat
  processor : String
deriving DecidableEq, Repr

namespace PDFProcessor

/-- The `page_content` list of one page in `PDFProcessor.process`:
substantial selectable text (non-empty and longer than 50 characters
after stripping) is used directly; otherwise OCR runs on the 2×-rendered
page, keeping non-empty recognized text and any residual selectable
text; an OCR exception falls back to the selectable text alone. -/
def page_content (page : PdfPage) : List String :=
  let text := pyStrip page.getText
  if text ≠ "" ∧ text.length > 50 then ["[Text]: " ++ text]
  else
    match page.ocr2x with
    | .ok ocr_text =>
      (if pyStrip ocr_text ≠ "" then ["[OCR]: " ++ pyStrip ocr_text] else []) ++
      (if text ≠ "" then ["[Text]: " ++ text] else [])
    | .error _ => if text ≠ "" then ["[Text]: " ++ text] else []

/-- The `texts` list of `PDFProcessor.process`: each page contributing
content yields one `[Page N]`-headed block, pages numbered from
`page_num + 1`. -/
def page_texts : Nat → List PdfPage → List String
  | _, [] => []
  | page_num, page :: rest =>
    let content := page_content page
    if content.isEmpty then page_texts (page_num + 1) rest
    else ("[Page " ++ toString (page_num + 1) ++ "]\n" ++ String.intercalate "\n" content) ::
      page_texts (page_num + 1) rest

/-- Embedding of `PDFProcessor.process`.  `opened` is the outcome of `fitz.open` and
the page iteration; on any exception the handler prints and returns the
empty list (it does not re-raise). -/
def process (chunk_size chunk_overlap : Nat) (file_path : String)
    (opened : Except String (List PdfPage)) :
    Except PyErr (List (LCDocument (ChunkMeta PDFMeta))) :=
  match opened with
  | .error _ => .ok []
  | .ok pages =>
    let texts := page_texts 0 pages
    if texts.isEmpty then .ok []
    else
      .ok (BaseDocumentProcessor.create_documents chunk_size chunk_overlap texts
        { source := file_path
          filename := pyName file_path
          file_type := "pdf"
          page_count := texts.length
          processor := "PDFProcessor_OCR" })

end PDFProcessor

/-- An opened `.docx` file as `DocxProcessor.process` reads it:
paragraph texts in order, and tables as row lists of cell texts. -/
structure DocxFile where
  paragraphs : List String
  tables : List (List (List String))
deriving DecidableEq, Repr

/-- The metadata dict `DocxProcessor.process` builds. -/
structure DocxMeta where
  source : String
  filename : String
  file_type : String
  paragraph_count : Nat
  table_count : Nat
  processor : String
deriving DecidableEq, Repr

namespace DocxProcessor

/-- Embedding of `DocxProcessor.process`: paragraphs with non-blank text (kept
unstripped), then per table row the stripped non-blank cells joined with
`" | "`; an empty text list short-circuits to `[]`; any exception is
caught, printed, and `[]` is returned. -/
def process (chunk_size chunk_overlap : Nat) (file_path : String)
    (opened : Except String DocxFile) :
    Except PyErr (List (LCDocument (ChunkMeta DocxMeta))) :=
  match opened with
  | .error _ => .ok []
  | .ok doc =>
    let para_texts := doc.paragraphs.filter fun p => pyStrip p ≠ ""
    let table_texts := doc.tables.flatMap fun table =>
      table.filterMap fun row =>
        let row_text := (row.filter fun cell => pyStrip cell ≠ "").map pyStrip
        if row_text.isEmpty then none
        else some (String.intercalate " | " row_text)
    let texts := para_texts ++ table_texts
    if texts.isEmpty then .ok []
    else
      .ok (BaseDocumentProcessor.create_documents chunk_size chunk_overlap texts
        { source := file_path
          filename := pyName file_path
          file_type := "docx"
          paragraph_count := para_texts.length
          table_count := doc.tables.length
          processor := "DocxProcessor" })

end DocxProcessor

/-- A cell of a pandas `DataFrame` as the embedded code reads one:
a numeric value, a string, or a missing value (`NaN`, i.e. `pd.notna`
false). -/
inductive Cell where
  | num (q : ℚ)
  | str (s : String)
  | na
deriving DecidableEq, Repr

/-- Whether `pd.notna` holds of a cell. -/
def Cell.notna : Cell → Bool
  | .na => false
  | _ => true

/-- Python `str(val)` for a cell value, modelled loosely for numbers
(whole values render as pandas int64 would; no theorem inspects these
strings). -/
def Cell.render : Cell → String
  | .num q => if q.den = 1 then toString q.num else toString q.num ++ "/" ++ toString q.den
  | .str s => s
  | .na => "nan"

/-- A pandas `DataFrame` as `ExcelProcessor.process` reads one: column
names, their dtypes (parallel list, as `df.dtypes` reports them), and the
rows of cells. -/
structure DataFrame where
  columns : List String
  dtypes : List String
  rows : List (List Cell)
deriving DecidableEq, Repr

/-- pandas `df.empty`: true when any axis has length 0. -/
def DataFrame.empty (df : DataFrame) : Bool :=
  df.rows.isEmpty || df.columns.isEmpty

/-- The dtypes pandas `select_dtypes with the number kind` selects. -/
def numericDtypes : List String := ["int64", "float64"]

/-- The numeric column names of a frame
(`df.select_dtypes with the number kind.columns`). -/
def DataFrame.numeric_cols (df : DataFrame) : List String :=
  ((df.columns.zip df.dtypes).filter fun cd => cd.2 ∈ numericDtypes).map Prod.fst

/-- The non-missing numeric values of the named column (what
`df[col].describe()` aggregates over, NaN excluded). -/
def DataFrame.col_values (df : DataFrame) (col : String) : List ℚ :=
  let j := df.columns.findIdx fun c => decide (c = col)
  df.rows.filterMap fun row =>
    match row.getD j .na with
    | .num q => some q
    | _ => none

/-- Two-decimal rendering of a mean value (`f"{mean_val:.2f}"`), modelled
loosely; no theorem inspects it. -/
def fmt2 (q : ℚ) : String :=
  toString q.num ++ "/" ++ toString q.den

/-- pandas `df.to_string(index=False, max_rows=100)`, modelled loosely:
header then up to `max_rows` rows, cells space-joined (alignment and
truncation ellipses omitted; no theorem inspects it). -/
def DataFrame.to_string (df : DataFrame) (max_rows : Nat) : String :=
  String.intercalate "\n"
    (String.intercalate " " df.columns ::
      (df.rows.take max_rows).map fun row => String.intercalate " " (row.map Cell.render))

/-- The per-sheet metadata entry `ExcelProcessor.process` appends to
`tables_metadata` (the source also records `memory_usage`, an opaque
pandas quantity not modelled here). -/
structure SheetMeta where
  sheet_name : String
  rows : Nat
  columns : Nat
  column_names : List String
  data_types : List (String × String)
deriving DecidableEq, Repr

/-- The metadata dict `ExcelProcessor.process` builds. -/
structure ExcelMeta where
  source : String
  file_type : String
  total_sheets : Nat
  tables_metadata : List SheetMeta
deriving DecidableEq, Repr

namespace ExcelProcessor

/-- The `sheet_text` block `ExcelProcessor.process` renders for one
non-empty sheet: sheet name, column headers, summary statistics for the
numeric columns, up to 10 sample rows, and a bounded full dump. -/
def sheet_text (sheet_name : String) (df : DataFrame) : String :=
  let headers := df.columns
  let base := ["Sheet: " ++ sheet_name, "Columns: " ++ String.intercalate ", " headers]
  let numeric_cols := df.numeric_cols
  let stats :=
    if numeric_cols.length > 0 then
      "Summary Statistics:" :: numeric_cols.map fun col =>
        let vals := df.col_values col
        let mean_val : ℚ := if vals.isEmpty then 0 else vals.sum / vals.length
        let min_val : ℚ := match vals with | [] => 0 | v :: vs => vs.foldl min v
        let max_val : ℚ := match vals with | [] => 0 | v :: vs => vs.foldl max v
        col ++ ": mean=" ++ fmt2 mean_val ++ ", min=" ++ fmt2 min_val ++
          ", max=" ++ fmt2 max_val
    else []
  let sample_rows := min 10 df.rows.length
  let sample :=
    "\nSample Data:" ::
      ((df.rows.take sample_rows).enum.map fun ir =>
        let row_text := String.intercalate ", "
          (((df.columns.zip ir.2).filter fun cv => cv.2.notna).map fun cv =>
            cv.1 ++ ": " ++ cv.2.render)
        "Row " ++ toString (ir.1 + 1) ++ ": " ++ row_text)
  let full := ["\nFull Table Content:", df.to_string 100]
  String.intercalate "\n" (base ++ stats ++ sample ++ full)

/-- The per-sheet metadata entry. -/
def sheet_meta (sheet_name : String) (df : DataFrame) : SheetMeta :=
  { sheet_name := sheet_name
    rows := df.rows.length
    columns := df.columns.length
    column_names := df.columns
    data_types := df.columns.zip df.dtypes }

/-- Embedding of `ExcelProcessor.process`.  `opened` is the parsed sheet dict
(`{sheet_name: DataFrame}`, a single `Sheet1` entry for `.csv`); empty
sheets are skipped; any exception is wrapped and re-raised as
`Exception(f"Error processing Excel/CSV file {file_path}: {e}")`. -/
def process (chunk_size chunk_overlap : Nat) (file_path : String)
    (opened : Except String (List (String × DataFrame))) :
    Except PyErr (List (LCDocument (ChunkMeta ExcelMeta))) :=
  match opened with
  | .error e =>
    .error (.exception ("Error processing Excel/CSV file " ++ file_path ++ ": " ++ e))
  | .ok sheets =>
    let non_empty := sheets.filter fun sd => !sd.2.empty
    let texts := non_empty.map fun sd => sheet_text sd.1 sd.2
    let tables_metadata := non_empty.map fun sd => sheet_meta sd.1 sd.2
    .ok (BaseDocumentProcessor.create_documents chunk_size chunk_overlap texts
      { source := file_path
        file_type := "spreadsheet"
        total_sheets := sheets.length
        tables_metadata := tables_metadata })

end ExcelProcessor

/-- A shape of a presentation slide as `PowerPointProcessor.process`
reads it: its text attribute when present (`hasattr(shape, "text")`),
its `shape_type` (13 marks a picture), and — read only for pictures —
the outcome of OCR on the image blob of the shape (an `error` value is an
exception raised anywhere in that `try` block). -/
structure PptShape where
  text : Option String
  shape_type : Nat
  image_ocr : Except String String
deriving DecidableEq, Repr

/-- A slide: its shape list. -/
structure PptSlide where
  shapes : List PptShape
deriving DecidableEq, Repr

/-- The metadata dict `PowerPointProcessor.process` builds
(`images_metadata` entries keep the slide number and stripped OCR text;
the source also records the image size, an opaque PIL quantity). -/
structure PptMeta where
  source : String
  file_type : String
  total_slides : Nat
  images_found : Nat
  images_metadata : List (Nat × String)
deriving DecidableEq, Repr

namespace PowerPointProcessor

/-- The per-slide `slide_text` lines and `images` entries, shapes scanned
in order: non-blank shape text first, then — for picture shapes —
non-blank OCR text as `[Image OCR]: ...` (an OCR exception is printed
and skipped). -/
def slide_parts (slide_num : Nat) (slide : PptSlide) :
    List String × List (Nat × String) :=
  slide.shapes.foldl
    (fun acc shape =>
      let acc1 :=
        match shape.text with
        | some t => if pyStrip t ≠ "" then (acc.1 ++ [pyStrip t], acc.2) else acc
        | none => acc
      if shape.shape_type = 13 then
        match shape.image_ocr with
        | .ok ocr_text =>
          if pyStrip ocr_text ≠ "" then
            (acc1.1 ++ ["[Image OCR]: " ++ pyStrip ocr_text],
             acc1.2 ++ [(slide_num, pyStrip ocr_text)])
          else acc1
        | .error _ => acc1
      else acc1)
    ([], [])

/-- Embedding of `PowerPointProcessor.process`.  `opened` is the parsed presentation;
slides are numbered from 1; a slide with any collected text yields one
`Slide N:`-headed block; any exception is wrapped and re-raised as
`Exception(f"Error processing PowerPoint file {file_path}: {e}")`. -/
def process (chunk_size chunk_overlap : Nat) (file_path : String)
    (opened : Except String (List PptSlide)) :
    Except PyErr (List (LCDocument (ChunkMeta PptMeta))) :=
  match opened with
  | .error e =>
    .error (.exception ("Error processing PowerPoint file " ++ file_path ++ ": " ++ e))
  | .ok slides =>
    let parts := slides.enum.map fun is => slide_parts (is.1 + 1) is.2
    let texts := (slides.enum.zip parts).filterMap fun ip =>
      if ip.2.1.isEmpty then none
      else some ("Slide " ++ toString (ip.1.1 + 1) ++ ":\n" ++
        String.intercalate "\n" ip.2.1)
    let images := parts.flatMap Prod.snd
    .ok (BaseDocumentProcessor.create_documents chunk_size chunk_overlap texts
      { source := file_path
        file_type := "powerpoint"
        total_slides := slides.length
        images_found := images.length
        images_metadata := images })

end PowerPointProcessor

/-! ## Shared helper lemmas -/

theorem split_text_empty (chunk_size chunk_overlap : Nat) :
    split_text chunk_size chunk_overlap "" = [] := rfl

theorem create_documents_nil {M : Type} (chunk_size chunk_overlap : Nat) (metadata : M) :
    BaseDocumentProcessor.create_documents chunk_size chunk_overlap [] metadata = [] := rfl

theorem merge_singleton (t : TableDict) :
    TableProcessor.merge_duplicate_tables [t] = [t] := by
  simp [TableProcessor.merge_duplicate_tables]

theorem lookup_isSome_iff_mem_keys (a : String) (l : List (String × ProcessorKind)) :
    (l.lookup a).isSome = true ↔ a ∈ l.map Prod.fst := by
  induction l with
  | nil => simp [List.lookup]
  | cons kv tl ih =>
    by_cases h : a = kv.1
    · subst h
      simp [List.lookup]
    · have hb : (a == kv.1) = false := beq_eq_false_iff_ne.mpr h
      simp [List.lookup, hb, ih, h]

theorem lookup_eq_none_of_not_mem_keys (a : String) (l : List (String × ProcessorKind))
    (h : a ∉ l.map Prod.fst) : l.lookup a = none := by
  cases hl : l.lookup a with
  | none => rfl
  | some k =>
    exact absurd ((lookup_isSome_iff_mem_keys a l).mp (by simp [hl])) h

/-! ## Claim theorems -/

/-- C3: for every file path whose lower-cased extension is not in the
factory registry, `DocumentProcessorFactory.get_processor` raises the
unsupported-format error (named `UnsupportedFormatError` by the spec, realized
in the source as `ValueError(f"Unsupported file type: {ext}")`), and for
a path ending in `.pdf` it returns the page-document (PDF) processor. -/
theorem get_processor_unsupported_raises_and_pdf :
    (∀ file_path : String,
        pyLower (pySuffix file_path) ∉ DocumentProcessorFactory.get_supported_types →
        DocumentProcessorFactory.get_processor file_path =
          .error (.valueError ("Unsupported file type: " ++ pyLower (pySuffix file_path)))) ∧
    DocumentProcessorFactory.get_processor "file.pdf" = .ok .pdf := by
  constructor
  · intro file_path h
    have hnone : DocumentProcessorFactory.processors.lookup (pyLower (pySuffix file_path)) =
        none :=
      lookup_eq_none_of_not_mem_keys _ _ h
    simp [DocumentProcessorFactory.get_processor, hnone]
  · with_unfolding_all decide

/-- C3 witness: `"file.exe"` has an unregistered extension and
`get_processor` raises the unsupported-format `ValueError` on it. -/
theorem get_processor_unsupported_raises_and_pdf_witness :
    pyLower (pySuffix "file.exe") ∉ DocumentProcessorFactory.get_supported_types ∧
    DocumentProcessorFactory.get_processor "file.exe" =
      .error (.valueError ("Unsupported file type: " ++ pyLower (pySuffix "file.exe"))) :=
  ⟨by with_unfolding_all decide,
   get_processor_unsupported_raises_and_pdf.1 "file.exe" (by with_unfolding_all decide)⟩

/-- C10: `get_supported_types` returns exactly the ten registered
extensions, and `get_processor` succeeds exactly on paths whose
lower-cased suffix is one of those ten (matching is case-insensitive via
the lower-casing) — every other path gets the unsupported-format
`ValueError`. -/
theorem factory_registry_characterization :
    DocumentProcessorFactory.get_supported_types =
      [".pdf", ".docx", ".pptx", ".ppt", ".xlsx", ".csv", ".md", ".txt", ".db", ".sqlite"] ∧
    ∀ file_path : String,
      ((DocumentProcessorFactory.get_processor file_path).isOk = true ↔
        pyLower (pySuffix file_path) ∈
          ([".pdf", ".docx", ".pptx", ".ppt", ".xlsx", ".csv", ".md", ".txt", ".db",
            ".sqlite"] : List String)) ∧
      ((DocumentProcessorFactory.get_processor file_path).isOk = true ∨
        DocumentProcessorFactory.get_processor file_path =
          .error (.valueError ("Unsupported file type: " ++ pyLower (pySuffix file_path)))) := by
  refine ⟨rfl, fun file_path => ⟨?_, ?_⟩⟩
  · have hkeys : DocumentProcessorFactory.processors.map Prod.fst =
        [".pdf", ".docx", ".pptx", ".ppt", ".xlsx", ".csv", ".md", ".txt", ".db", ".sqlite"] :=
      rfl
    rw [← hkeys, ← lookup_isSome_iff_mem_keys]
    cases hl : DocumentProcessorFactory.processors.lookup (pyLower (pySuffix file_path)) with
    | none => simp [DocumentProcessorFactory.get_processor, hl, Except.isOk, Except.toBool]
    | some k => simp [DocumentProcessorFactory.get_processor, hl, Except.isOk, Except.toBool]
  · cases hl : DocumentProcessorFactory.processors.lookup (pyLower (pySuffix file_path)) with
    | none => exact Or.inr (by simp [DocumentProcessorFactory.get_processor, hl])
    | some k =>
      exact Or.inl (by simp [DocumentProcessorFactory.get_processor, hl, Except.isOk, Except.toBool])

/-- C7: `_create_documents` numbers its chunks `0..N-1` in order
(`chunk_id`) and stamps every chunk with `chunk_count = N`. -/
theorem create_documents_chunk_index_contiguity {M : Type}
    (chunk_size chunk_overlap : Nat) (texts : List String) (metadata : M) :
    ((BaseDocumentProcessor.create_documents chunk_size chunk_overlap texts metadata).map
        fun d => d.metadata.chunk_id) =
      List.range
        (BaseDocumentProcessor.create_documents chunk_size chunk_overlap texts metadata).length ∧
    ∀ d ∈ BaseDocumentProcessor.create_documents chunk_size chunk_overlap texts metadata,
      d.metadata.chunk_count =
        (BaseDocumentProcessor.create_documents chunk_size chunk_overlap texts metadata).length := by
  constructor
  · simp only [BaseDocumentProcessor.create_documents, List.map_map, List.length_map,
      List.enum_length]
    exact List.enum_map_fst _
  · intro d hd
    simp only [BaseDocumentProcessor.create_documents, List.mem_map, List.length_map,
      List.enum_length] at hd ⊢
    obtain ⟨ic, _, rfl⟩ := hd
    rfl

/-- C9: `_classify_image_type` implements exactly the claimed ordered
tests, for every image that contains at least one color (the `colors and`
truthiness guard in the source additionally rejects a colorless image,
which no rendered image is). -/
theorem classify_image_type_matches_spec_order (image : PILImage) (ocr_text : String)
    (h : 1 ≤ image.distinct_colors) :
    ImageProcessor.classify_image_type image ocr_text = spec_classify_image image ocr_text := by
  by_cases h1 : ocr_text.length > 50
  · simp [ImageProcessor.classify_image_type, spec_classify_image, h1]
  by_cases h2 : ocr_text.data.any Char.isDigit
  · simp [ImageProcessor.classify_image_type, spec_classify_image, h1, h2]
  by_cases h3 : image.mode = "1"
  · simp [ImageProcessor.classify_image_type, spec_classify_image, h1, h2, h3]
  by_cases h4 : image.mode = "RGB" ∨ image.mode = "RGBA"
  · by_cases h5 : image.distinct_colors > 256
    · have h6 : ¬ image.distinct_colors < 10 := by omega
      simp [ImageProcessor.classify_image_type, spec_classify_image, PILImage.getcolors,
        h1, h2, h3, h4, h5, h6]
    · by_cases h6 : image.distinct_colors < 10
      · have h7 : image.distinct_colors ≠ 0 := by omega
        simp [ImageProcessor.classify_image_type, spec_classify_image, PILImage.getcolors,
          h1, h2, h3, h4, h5, h6, h7]
      · simp [ImageProcessor.classify_image_type, spec_classify_image, PILImage.getcolors,
          h1, h2, h3, h4, h5, h6]
  · simp [ImageProcessor.classify_image_type, spec_classify_image, h1, h2, h3, h4]

/-- C9 witness: a 5-color RGB image with no recognized text classifies as
`logo_or_icon` under both the source classifier and the claimed rule. -/
theorem classify_image_type_matches_spec_order_witness :
    ImageProcessor.classify_image_type ⟨"RGB", 5⟩ "" = spec_classify_image ⟨"RGB", 5⟩ "" ∧
    ImageProcessor.classify_image_type ⟨"RGB", 5⟩ "" = "logo_or_icon" :=
  ⟨classify_image_type_matches_spec_order ⟨"RGB", 5⟩ "" (by decide),
   by with_unfolding_all decide⟩

/-- C5: a structurally valid spreadsheet whose sheets are all empty makes
`ExcelProcessor.process` return an empty chunk list, not raise. -/
theorem excel_all_sheets_empty_yields_no_chunks (chunk_size chunk_overlap : Nat)
    (file_path : String) (sheets : List (String × DataFrame))
    (h : ∀ sd ∈ sheets, sd.2.empty = true) :
    ExcelProcessor.process chunk_size chunk_overlap file_path (.ok sheets) = .ok [] := by
  have hfilter : sheets.filter (fun sd => !sd.2.empty) = [] := by
    rw [List.filter_eq_nil_iff]
    intro sd hsd
    simp [h sd hsd]
  simp [ExcelProcessor.process, hfilter, create_documents_nil]

/-- C5 witness: a one-sheet workbook whose sheet has columns but no rows
is empty, and processing it yields `.ok []`. -/
theorem excel_all_sheets_empty_yields_no_chunks_witness :
    (∀ sd ∈ ([("Sheet1", ⟨["A", "B"], ["int64", "int64"], []⟩)] :
        List (String × DataFrame)), sd.2.empty = true) ∧
    ExcelProcessor.process 1000 200 "empty.xlsx"
      (.ok [("Sheet1", ⟨["A", "B"], ["int64", "int64"], []⟩)]) = .ok [] :=
  ⟨by with_unfolding_all decide,
   excel_all_sheets_empty_yields_no_chunks 1000 200 "empty.xlsx"
     [("Sheet1", ⟨["A", "B"], ["int64", "int64"], []⟩)] (by with_unfolding_all decide)⟩

/-- C1 counterexample: in a three-candidate list, two same-page
candidates whose boxes overlap by more than 50% of the area of the
smaller box (the second and third below: the third box lies wholly
inside the second) can BOTH survive `_merge_duplicate_tables`, because
overlap is only ever tested against the first unused candidate of each
group — refuting the claim that any such pair is merged into exactly one
surviving candidate. -/
theorem merge_overlapping_pair_both_survive_counterexample :
    TableProcessor.tables_overlap
      ⟨0, 1, "image_based", .text "B", (0, 0, 30, 10), 0.9⟩
      ⟨0, 2, "image_based", .text "C", (14, 0, 24, 10), 0.6⟩ = true ∧
    TableProcessor.merge_duplicate_tables
      [⟨0, 0, "text_based", .text "A", (0, 0, 10, 10), 0.5⟩,
       ⟨0, 1, "image_based", .text "B", (0, 0, 30, 10), 0.9⟩,
       ⟨0, 2, "image_based", .text "C", (14, 0, 24, 10), 0.6⟩] =
      [⟨0, 1, "image_based", .text "B", (0, 0, 30, 10), 0.9⟩,
       ⟨0, 2, "image_based", .text "C", (14, 0, 24, 10), 0.6⟩] := by
  with_unfolding_all decide

/-- C1 (amended): when reconciliation runs on exactly the two
candidates, a same-page pair overlapping by more than 50% of the area of the smaller
box is merged into exactly one surviving candidate whose
confidence is the maximum of the two. -/
theorem merge_two_overlapping_candidates (a b : TableDict)
    (h : TableProcessor.tables_overlap a b = true) :
    ∃ m, TableProcessor.merge_duplicate_tables [a, b] = [m] ∧
      m.confidence = max a.confidence b.confidence := by
  have hmerge : TableProcessor.merge_duplicate_tables [a, b] =
      [if b.confidence > a.confidence then b else a] := by
    simp [TableProcessor.merge_duplicate_tables, List.filter_cons, h]
  refine ⟨_, hmerge, ?_⟩
  by_cases hc : b.confidence > a.confidence
  · rw [if_pos hc]
    exact (max_eq_right hc.le).symm
  · rw [if_neg hc]
    exact (max_eq_left (not_lt.mp hc)).symm

/-- C1 witness: spec scenario C — two candidates on the same page
with 70% bounding-box overlap and confidences 0.8 and 0.6 — yields
exactly one survivor carrying the maximum confidence. -/
theorem merge_two_overlapping_candidates_witness :
    TableProcessor.tables_overlap
      ⟨0, 0, "text_based", .text "T1", (0, 0, 10, 10), 0.8⟩
      ⟨0, 1, "image_based", .text "T2", (0, 3, 10, 13), 0.6⟩ = true ∧
    ∃ m, TableProcessor.merge_duplicate_tables
        [⟨0, 0, "text_based", .text "T1", (0, 0, 10, 10), 0.8⟩,
         ⟨0, 1, "image_based", .text "T2", (0, 3, 10, 13), 0.6⟩] = [m] ∧
      m.confidence =
        max (⟨0, 0, "text_based", .text "T1", (0, 0, 10, 10), 0.8⟩ : TableDict).confidence
          (⟨0, 1, "image_based", .text "T2", (0, 3, 10, 13), 0.6⟩ : TableDict).confidence :=
  ⟨by with_unfolding_all decide,
   merge_two_overlapping_candidates _ _ (by with_unfolding_all decide)⟩

/-- C2 counterexample: on the three-candidate list of the C1
counterexample, a second application of `_merge_duplicate_tables`
performs a further merge, so the function is not idempotent. -/
theorem merge_not_idempotent_counterexample :
    TableProcessor.merge_duplicate_tables (TableProcessor.merge_duplicate_tables
      [⟨0, 0, "text_based", .text "A", (0, 0, 10, 10), 0.5⟩,
       ⟨0, 1, "image_based", .text "B", (0, 0, 30, 10), 0.9⟩,
       ⟨0, 2, "image_based", .text "C", (14, 0, 24, 10), 0.6⟩]) ≠
    TableProcessor.merge_duplicate_tables
      [⟨0, 0, "text_based", .text "A", (0, 0, 10, 10), 0.5⟩,
       ⟨0, 1, "image_based", .text "B", (0, 0, 30, 10), 0.9⟩,
       ⟨0, 2, "image_based", .text "C", (14, 0, 24, 10), 0.6⟩] := by
  with_unfolding_all decide

/-- C2 (amended): `_merge_duplicate_tables` is idempotent on candidate
lists of at most two elements (on larger lists a second application may
merge further, as the counterexample shows). -/
theorem merge_idempotent_on_at_most_two (l : List TableDict) (h : l.length ≤ 2) :
    TableProcessor.merge_duplicate_tables (TableProcessor.merge_duplicate_tables l) =
      TableProcessor.merge_duplicate_tables l := by
  match l with
  | [] => simp [TableProcessor.merge_duplicate_tables]
  | [a] =>
    rw [merge_singleton]
    exact merge_singleton a
  | [a, b] =>
    by_cases hab : TableProcessor.tables_overlap a b = true
    · have h2 : TableProcessor.merge_duplicate_tables [a, b] =
          [if b.confidence > a.confidence then b else a] := by
        simp [TableProcessor.merge_duplicate_tables, List.filter_cons, hab]
      rw [h2, merge_singleton]
    · have hab' : TableProcessor.tables_overlap a b = false := by
        simpa using hab
      have h2 : TableProcessor.merge_duplicate_tables [a, b] = [a, b] := by
        simp [TableProcessor.merge_duplicate_tables, List.filter_cons, hab', merge_singleton]
      rw [h2]
      exact h2
  | a :: b :: c :: t =>
    simp only [List.length_cons] at h
    omega

/-- C2 witness: idempotence on a concrete two-candidate list. -/
theorem merge_idempotent_on_at_most_two_witness :
    TableProcessor.merge_duplicate_tables (TableProcessor.merge_duplicate_tables
      [⟨0, 0, "text_based", .text "T1", (0, 0, 10, 10), 0.8⟩,
       ⟨1, 1, "image_based", .text "T2", (0, 3, 10, 13), 0.6⟩]) =
    TableProcessor.merge_duplicate_tables
      [⟨0, 0, "text_based", .text "T1", (0, 0, 10, 10), 0.8⟩,
       ⟨1, 1, "image_based", .text "T2", (0, 3, 10, 13), 0.6⟩] :=
  merge_idempotent_on_at_most_two _ (by decide)

/-- C4 (amended): a failure to open/parse the top-level container is
wrapped into an exception carrying the source path and the underlying
cause by the PowerPoint and Excel/CSV processors, but the PDF and DOCX
processors catch the failure and return an EMPTY chunk list instead of
raising. -/
theorem processor_open_failure_semantics :
    (∀ (chunk_size chunk_overlap : Nat) (file_path cause : String),
        PowerPointProcessor.process chunk_size chunk_overlap file_path (.error cause) =
          .error (.exception
            ("Error processing PowerPoint file " ++ file_path ++ ": " ++ cause))) ∧
    (∀ (chunk_size chunk_overlap : Nat) (file_path cause : String),
        ExcelProcessor.process chunk_size chunk_overlap file_path (.error cause) =
          .error (.exception
            ("Error processing Excel/CSV file " ++ file_path ++ ": " ++ cause))) ∧
    (∀ (chunk_size chunk_overlap : Nat) (file_path cause : String),
        PDFProcessor.process chunk_size chunk_overlap file_path (.error cause) = .ok []) ∧
    (∀ (chunk_size chunk_overlap : Nat) (file_path cause : String),
        DocxProcessor.process chunk_size chunk_overlap file_path (.error cause) = .ok []) :=
  ⟨fun _ _ _ _ => rfl, fun _ _ _ _ => rfl, fun _ _ _ _ => rfl, fun _ _ _ _ => rfl⟩

/-- C4 counterexample: the PDF processor, a Format Processor, returns a
normal empty result — not an `ExtractionError` — when its input cannot
be opened, refuting the claim for "every Format Processor". -/
theorem pdf_open_failure_returns_empty_counterexample :
    PDFProcessor.process 1000 200 "broken.pdf" (.error "cannot open broken.pdf") = .ok [] :=
  rfl

/-- C6: per-page behavior of `PDFProcessor.process` — stripped selectable
text that is non-empty and longer than 50 characters is kept alone under
the `[Text]` provenance tag; otherwise OCR output on the 2×-rendered page
is kept under `[OCR]` with any residual selectable text also kept under
`[Text]`; a page yielding neither contributes nothing and raises nothing.
On the 3-page scenario (a 2000-character text page, an OCR-only page and
a blank page) exactly the two expected provenance-tagged page blocks are
produced and page 3 contributes nothing. -/
theorem pdf_page_provenance_and_scenario :
    (∀ page : PdfPage, pyStrip page.getText ≠ "" → (pyStrip page.getText).length > 50 →
        PDFProcessor.page_content page = ["[Text]: " ++ pyStrip page.getText]) ∧
    (∀ (page : PdfPage) (ocr_text : String),
        ¬(pyStrip page.getText ≠ "" ∧ (pyStrip page.getText).length > 50) →
        page.ocr2x = .ok ocr_text →
        PDFProcessor.page_content page =
          (if pyStrip ocr_text ≠ "" then ["[OCR]: " ++ pyStrip ocr_text] else []) ++
          (if pyStrip page.getText ≠ "" then ["[Text]: " ++ pyStrip page.getText] else [])) ∧
    (∀ (page : PdfPage) (ocr_text : String),
        pyStrip page.getText = "" → page.ocr2x = .ok ocr_text → pyStrip ocr_text = "" →
        PDFProcessor.page_content page = []) ∧
    PDFProcessor.page_texts 0
      [⟨⟨List.replicate 2000 'a'⟩, .ok ""⟩,
       ⟨"", .ok "A scanned paragraph of recognizable text."⟩,
       ⟨"", .ok ""⟩] =
      ["[Page 1]\n[Text]: " ++ (⟨List.replicate 2000 'a'⟩ : String),
       "[Page 2]\n[OCR]: A scanned paragraph of recognizable text."] := by
  have hA : ∀ page : PdfPage, pyStrip page.getText ≠ "" → (pyStrip page.getText).length > 50 →
      PDFProcessor.page_content page = ["[Text]: " ++ pyStrip page.getText] := by
    intro page h1 h2
    simp [PDFProcessor.page_content, h1, h2]
  refine ⟨hA, ?_, ?_, ?_⟩
  · intro page ocr_text hneg hocr
    simp [PDFProcessor.page_content, hneg, hocr]
  · intro page ocr_text h1 h2 h3
    simp [PDFProcessor.page_content, h1, h2, h3]
  · -- the 3-page scenario, evaluated without unrolling the 2000-character page
    have hd : (List.replicate 2000 'a').dropWhile Char.isWhitespace =
        List.replicate 2000 'a' := by
      rw [List.dropWhile_eq_self_iff]
      intro hl
      rw [List.get_eq_getElem, List.getElem_replicate]
      decide
    have hstrip : pyStrip ⟨List.replicate 2000 'a'⟩ = ⟨List.replicate 2000 'a'⟩ := by
      show (⟨(((List.replicate 2000 'a').dropWhile
        Char.isWhitespace).reverse.dropWhile Char.isWhitespace).reverse⟩ : String) = _
      rw [hd, List.reverse_replicate, hd, List.reverse_replicate]
    have hlen : (pyStrip ⟨List.replicate 2000 'a'⟩).length = 2000 := by
      rw [hstrip]
      exact List.length_replicate 2000 'a'
    have hne : pyStrip ⟨List.replicate 2000 'a'⟩ ≠ "" := by
      intro hcon
      have hc := congrArg String.length hcon
      rw [hlen] at hc
      exact absurd hc (by decide)
    have hgt : (pyStrip ⟨List.replicate 2000 'a'⟩).length > 50 := by
      rw [hlen]
      decide
    have hc1 : PDFProcessor.page_content ⟨⟨List.replicate 2000 'a'⟩, .ok ""⟩ =
        ["[Text]: " ++ pyStrip ⟨List.replicate 2000 'a'⟩] :=
      hA ⟨⟨List.replicate 2000 'a'⟩, .ok ""⟩ hne hgt
    have hc2 : PDFProcessor.page_content
        ⟨"", .ok "A scanned paragraph of recognizable text."⟩ =
        ["[OCR]: A scanned paragraph of recognizable text."] := by
      with_unfolding_all decide
    have hc3 : PDFProcessor.page_content ⟨"", .ok ""⟩ = [] := by
      with_unfolding_all decide
    rw [PDFProcessor.page_texts, hc1]
    rw [show (["[Text]: " ++ pyStrip ⟨List.replicate 2000 'a'⟩] : List String).isEmpty =
      false from rfl]
    rw [PDFProcessor.page_texts, hc2]
    rw [show (["[OCR]: A scanned paragraph of recognizable text."] : List String).isEmpty =
      false from rfl]
    rw [PDFProcessor.page_texts, hc3]
    rw [show ([] : List String).isEmpty = true from rfl]
    simp only [if_neg, if_pos, Bool.false_eq_true, not_false_eq_true, ite_true, ite_false,
      PDFProcessor.page_texts]
    rw [hstrip]
    rfl

/-- C6 witness: a page of 60 non-blank characters keeps only its
`[Text]` block, and a page with no selectable text and whitespace-only
OCR output contributes nothing. -/
theorem pdf_page_provenance_and_scenario_witness :
    PDFProcessor.page_content ⟨⟨List.replicate 60 'x'⟩, .ok ""⟩ =
      ["[Text]: " ++ pyStrip (⟨List.replicate 60 'x'⟩ : String)] ∧
    PDFProcessor.page_content ⟨"", .ok "  "⟩ = [] :=
  ⟨pdf_page_provenance_and_scenario.1 ⟨⟨List.replicate 60 'x'⟩, .ok ""⟩
     (by with_unfolding_all decide) (by with_unfolding_all decide),
   pdf_page_provenance_and_scenario.2.2.1 ⟨"", .ok "  "⟩ "  "
     (by with_unfolding_all decide) rfl (by with_unfolding_all decide)⟩

/-- C8 (code-bug evaluation): a block meeting every qualifying condition
of the claim — 2 lines, each with 2 spans at two distinct rounded
columns, non-blank cell texts so the extracted grid is non-empty — makes
`_detect_tables_from_blocks` raise the pandas DataFrame-truthiness
`ValueError` at `if table_data:` instead of proposing the
confidence-0.8 candidate the source builds below that guard. -/
theorem detect_tables_raises_on_qualifying_block :
    TableProcessor.is_table_structure (TableProcessor.line_spans_of
      [⟨[⟨0, "Name"⟩, ⟨100, "Qty"⟩]⟩, ⟨[⟨0, "Bolt"⟩, ⟨100, "42"⟩]⟩]) = true ∧
    TableProcessor.extract_table_data (TableProcessor.line_spans_of
      [⟨[⟨0, "Name"⟩, ⟨100, "Qty"⟩]⟩, ⟨[⟨0, "Bolt"⟩, ⟨100, "42"⟩]⟩]) =
      some [["Name", "Qty"], ["Bolt", "42"]] ∧
    TableProcessor.detect_tables_from_blocks
      [⟨some [⟨[⟨0, "Name"⟩, ⟨100, "Qty"⟩]⟩, ⟨[⟨0, "Bolt"⟩, ⟨100, "42"⟩]⟩],
        (0, 0, 200, 50)⟩] 0 =
      .error TableProcessor.dataFrameBoolError := by
  refine ⟨?_, ?_, ?_⟩ <;> with_unfolding_all decide
